import Mathlib

/-!
Verification of the bikeshare-stations GeoJSON relay server (src/app.js).

The development shallowly embeds the server's pure core:

* `JVal` models the JavaScript/JSON values flowing through the program
  (numbers are modelled as `Int`; no claim performs arithmetic on them).
* `transformStation` / `transformFeed` embed the feed transformer
  (src/app.js lines 40-64).  A station is a JS object, i.e. an association
  list of fields; `getProp` embeds JS property access, returning `none`
  for `undefined`.
* `jsonStr` embeds `JSON.stringify(value, null, 3)` — pretty printing
  with 3-space indentation — used by `sendJsonResponse` (line 32).
* `SrvState`, `handleRequest`, `fetchStep`, `runRequests` embed the
  refresh-cache controller (lines 83-104).  The event-driven runtime is
  modelled by explicit steps: `handleRequest` is the synchronous request
  handler; it takes TWO clock samples `nowMS` (line 91) and `tStampMS`
  (the second `now()` call on line 99), because the source calls
  `Date.now()` twice.  `fetchStep` is the later, asynchronous completion
  of a fetch started by a stale request; an upstream failure (network
  error, malformed JSON, schema mismatch) never invokes the success
  callback, so it leaves the state unchanged and produces no response,
  exactly as in the source, which installs no error handler (lines 70-81).
-/

/-- JSON/JavaScript values (JS numbers restricted to `Int`: the program
never computes with them, it only moves them around). -/
inductive JVal where
  | jnull : JVal
  | jbool : Bool → JVal
  | jnum : Int → JVal
  | jstr : String → JVal
  | jarr : List JVal → JVal
  | jobj : List (String × JVal) → JVal
deriving Repr

/-- A station record as found in the upstream feed: a JS object, i.e. an
association list of named fields (spec §3, StationRecord). -/
abbrev Station := List (String × JVal)

/-- JS property access `station.key`: the value of the first field named
`key`, or `none` (i.e. `undefined`) when the object has no such field. -/
def getProp (station : Station) (key : String) : Option JVal :=
  (station.find? (fun f => f.1 == key)).map (fun f => f.2)

/-- GeoJSON geometry as built by `transformStation`: coordinate entries
are `Option JVal` because JS property access can yield `undefined`. -/
structure Geometry where
  gtype : String
  coordinates : List (Option JVal)
deriving Repr

/-- GeoJSON Feature as built by `transformStation`. -/
structure Feature where
  ftype : String
  geometry : Geometry
  properties : Station
deriving Repr

/-- GeoJSON FeatureCollection as built by `transformFeed`. -/
structure FeatureCollection where
  fctype : String
  features : List Feature
deriving Repr

/-- The raw upstream feed document.  `stationBeanList = none` models a
document lacking the `stationBeanList` field. -/
structure RawFeed where
  stationBeanList : Option (List Station)
deriving Repr

/-- Embeds `transformStation` (src/app.js lines 40-51): builds a Feature
whose coordinates are `[station.longitude, station.latitude]` (possibly
`undefined`) and whose properties are the station object, unchanged. -/
def transformStation (station : Station) : Feature :=
  { ftype := "Feature"
    geometry :=
      { gtype := "Point"
        coordinates := [getProp station "longitude", getProp station "latitude"] }
    properties := station }

/-- Embeds `transformFeed` (src/app.js lines 57-64).  Accessing
`.stationBeanList.map` on a document without that field throws a
`TypeError` in JS, modelled as `.error`; otherwise each station is mapped
by `transformStation`. -/
def transformFeed (stationFeedData : RawFeed) : Except String FeatureCollection :=
  match stationFeedData.stationBeanList with
  | none => .error "TypeError: stationBeanList is undefined"
  | some stations =>
      .ok { fctype := "FeatureCollection", features := stations.map transformStation }

/-- One character of JSON string escaping, as `JSON.stringify` performs it
for the characters that can occur in this program's data. -/
def escapeChar (c : Char) : String :=
  if c = '"' then "\\\""
  else if c = '\\' then "\\\\"
  else if c = '\n' then "\\n"
  else if c = '\r' then "\\r"
  else if c = '\t' then "\\t"
  else String.singleton c

/-- JSON string quoting, as `JSON.stringify` performs it. -/
def quoteStr (s : String) : String :=
  "\"" ++ String.join (s.toList.map escapeChar) ++ "\""

/-- The indentation produced by `JSON.stringify(v, null, 3)` at nesting
depth `d`: `d` copies of three spaces. -/
def gap (d : Nat) : String :=
  String.join (List.replicate d "   ")

/-- Rendering of one coordinate entry: `JSON.stringify` serializes an
`undefined` array element as `null`. -/
def coordToJVal : Option JVal → JVal
  | none => .jnull
  | some v => v

mutual

/-- Embeds `JSON.stringify(v, null, 3)` at nesting depth `d`: the exact
pretty-printed text produced on line 32 of src/app.js. -/
def jsonStr (d : Nat) : JVal → String
  | .jnull => "null"
  | .jbool b => cond b "true" "false"
  | .jnum n => toString n
  | .jstr s => quoteStr s
  | .jarr [] => "[]"
  | .jarr (x :: xs) =>
      "[\n" ++ gap (d + 1) ++ jsonStr (d + 1) x ++ jsonArrRest (d + 1) xs
        ++ "\n" ++ gap d ++ "]"
  | .jobj [] => "\x7b\x7d"
  | .jobj ((k, v) :: fs) =>
      "\x7b\n" ++ gap (d + 1) ++ quoteStr k ++ ": " ++ jsonStr (d + 1) v
        ++ jsonObjRest (d + 1) fs ++ "\n" ++ gap d ++ "\x7d"

/-- Remaining elements of a JSON array, each on its own indented line. -/
def jsonArrRest (d : Nat) : List JVal → String
  | [] => ""
  | x :: xs => ",\n" ++ gap d ++ jsonStr d x ++ jsonArrRest d xs

/-- Remaining fields of a JSON object, each on its own indented line. -/
def jsonObjRest (d : Nat) : List (String × JVal) → String
  | [] => ""
  | (k, v) :: fs => ",\n" ++ gap d ++ quoteStr k ++ ": " ++ jsonStr d v ++ jsonObjRest d fs

end

/-- The JSON document a `Feature` denotes when serialized. -/
def featureToJVal (f : Feature) : JVal :=
  .jobj
    [("type", .jstr f.ftype),
     ("geometry",
       .jobj [("type", .jstr f.geometry.gtype),
              ("coordinates", .jarr (f.geometry.coordinates.map coordToJVal))]),
     ("properties", .jobj f.properties)]

/-- The JSON document a `FeatureCollection` denotes when serialized. -/
def fcToJVal (fc : FeatureCollection) : JVal :=
  .jobj [("type", .jstr fc.fctype), ("features", .jarr (fc.features.map featureToJVal))]

/-- The JSON document held by the cache: `cachedStations` starts as JS
`null` (src/app.js line 19) and `JSON.stringify(null, null, 3)` is the
text `null`. -/
def cacheToJVal : Option FeatureCollection → JVal
  | none => .jnull
  | some fc => fcToJVal fc

/-- Config constant `millis` (src/app.js line 16). -/
def millis : Nat := 1000

/-- Config constant `refetchDelaySeconds` (src/app.js line 17). -/
def refetchDelaySeconds : Nat := 30

/-- The refetch interval in milliseconds, `refetchDelaySeconds * millis`
as computed on line 92 of src/app.js. -/
def refetchIntervalMillis : Nat := refetchDelaySeconds * millis

/-- The controller's mutable state: `lastFetchTimeMS` (line 18) and
`cachedStations` (line 19); `none` models the initial JS `null`. -/
structure SrvState where
  lastFetchTimeMS : Nat
  cachedStations : Option FeatureCollection
deriving Repr

/-- Process-start state: `lastFetchTimeMS = 0`, `cachedStations = null`. -/
def initState : SrvState :=
  { lastFetchTimeMS := 0, cachedStations := none }

/-- An incoming HTTP request: `url` is Node's raw `request.url` (path plus
query string), `origin` is `request.headers.origin` (`none` when the
header is absent; JS `undefined`). -/
structure Request where
  url : String
  origin : Option String
deriving Repr

/-- The path component of a raw request url: everything before the first
`?`.  (Node's `request.url` keeps the query string, so a request whose
path is `p` has `url = p` or `url = p ++ "?" ++ q`.) -/
def pathOf (url : String) : String :=
  String.mk (url.toList.takeWhile (fun c => c != '?'))

/-- Embeds the JS string expression `o || d`: the empty string is falsy,
so it falls through to the default, as does `undefined`. -/
def jsOrDefault (o : Option String) (d : String) : String :=
  match o with
  | some s => if s = "" then d else s
  | none => d

/-- An HTTP response as assembled by the handler: status code, the headers
set via `setHeader`, and the body passed to `response.end`. -/
structure HttpResponse where
  statusCode : Nat
  headers : List (String × String)
  body : String
deriving Repr, DecidableEq

/-- Embeds `sendJsonResponse` (src/app.js lines 27-34): status 200, the
two headers, and the body `JSON.stringify(json, null, 3)`. -/
def sendJsonResponse (request : Request) (json : JVal) : HttpResponse :=
  { statusCode := 200
    headers :=
      [("Content-Type", "application/json"),
       ("Access-Control-Allow-Origin", jsOrDefault request.origin "*")]
    body := jsonStr 0 json }

/-- What one synchronous run of the request handler did: answered 404,
answered from the cache, or started an upstream fetch (in which case the
response is deferred to the fetch callback, modelled by `fetchStep`). -/
inductive HandleResult where
  | notFound : HttpResponse → HandleResult
  | servedCached : HttpResponse → HandleResult
  | fetchStarted : HandleResult
deriving Repr, DecidableEq

/-- Embeds the request handler (src/app.js lines 83-104).  `nowMS` is the
`Date.now()` sample of line 91, compared against the staleness threshold
on line 92; `tStampMS` is the second `Date.now()` sample of line 99 that
is stored into `lastFetchTimeMS` after the fetch has been started (the
two samples are taken in the same synchronous block, so `nowMS ≤ tStampMS`
and they are usually, but not necessarily, equal). -/
def handleRequest (st : SrvState) (request : Request) (nowMS tStampMS : Nat) :
    SrvState × HandleResult :=
  if request.url ≠ "/" then
    (st, .notFound { statusCode := 404, headers := [], body := "NOT FOUND" })
  else if st.lastFetchTimeMS + refetchDelaySeconds * millis < nowMS then
    ({ lastFetchTimeMS := tStampMS, cachedStations := st.cachedStations }, .fetchStarted)
  else
    (st, .servedCached (sendJsonResponse request (cacheToJVal st.cachedStations)))

/-- Embeds the completion of a fetch started for `request` (the callback
on src/app.js lines 94-97 together with `fetchStations`, lines 70-81).
`upstreamBody = none` models a network-level failure: `https.get` has no
error handler, so the callback never runs.  A body whose parse/transform
fails (`transformFeed` errors) throws inside the `end` handler before
`cachedStations` is assigned, so it also leaves the state unchanged and
answers nothing.  On success the fresh FeatureCollection is stored and
sent to the triggering request. -/
def fetchStep (st : SrvState) (request : Request) (upstreamBody : Option RawFeed) :
    SrvState × Option HttpResponse :=
  match upstreamBody with
  | none => (st, none)
  | some raw =>
      match transformFeed raw with
      | .error _ => (st, none)
      | .ok stations =>
          ({ st with cachedStations := some stations },
           some (sendJsonResponse request (fcToJVal stations)))

/-- Runs a sequence of requests back to back on the single event-loop
thread, with no fetch completion interleaved; each list entry carries the
request and its two clock samples. -/
def runRequests : SrvState → List (Request × Nat × Nat) → SrvState × List HandleResult
  | st, [] => (st, [])
  | st, (r, t1, t2) :: rest =>
      let out := handleRequest st r t1 t2
      let outs := runRequests out.1 rest
      (outs.1, out.2 :: outs.2)

/-- Whether a handler run started an upstream fetch. -/
def isFetchStart : HandleResult → Bool
  | .fetchStarted => true
  | _ => false

/-- How many of the handler runs started an upstream fetch. -/
def countFetches (results : List HandleResult) : Nat :=
  (results.filter isFetchStart).length

/-- The request handler for a non-root url: status 404, body NOT FOUND,
state untouched (src/app.js lines 84-89). -/
lemma handleRequest_notFound (st : SrvState) (r : Request) (t1 t2 : Nat)
    (hurl : r.url ≠ "/") :
    handleRequest st r t1 t2
      = (st, .notFound { statusCode := 404, headers := [], body := "NOT FOUND" }) := by
  unfold handleRequest
  rw [if_pos hurl]

/-- The request handler for a root url in the fresh case: answers from the
cache and leaves the state untouched (src/app.js lines 100-103). -/
lemma handleRequest_root_fresh (st : SrvState) (r : Request) (t1 t2 : Nat)
    (hurl : r.url = "/") (hfresh : t1 ≤ st.lastFetchTimeMS + 30000) :
    handleRequest st r t1 t2
      = (st, .servedCached (sendJsonResponse r (cacheToJVal st.cachedStations))) := by
  unfold handleRequest
  rw [if_neg (by simp [hurl])]
  rw [if_neg (Nat.not_lt.mpr
    (show t1 ≤ st.lastFetchTimeMS + refetchDelaySeconds * millis from hfresh))]

/-- The request handler for a root url in the stale case: starts a fetch
and stamps the SECOND clock sample (src/app.js lines 91-99). -/
lemma handleRequest_root_stale (st : SrvState) (r : Request) (t1 t2 : Nat)
    (hurl : r.url = "/") (hstale : st.lastFetchTimeMS + 30000 < t1) :
    handleRequest st r t1 t2
      = ({ lastFetchTimeMS := t2, cachedStations := st.cachedStations }, .fetchStarted) := by
  unfold handleRequest
  rw [if_neg (by simp [hurl])]
  rw [if_pos (show st.lastFetchTimeMS + refetchDelaySeconds * millis < t1 from hstale)]

/-- A root request starts a fetch exactly when the strict staleness test
of src/app.js line 92 passes. -/
lemma handleRequest_fetchStarted_iff (st : SrvState) (r : Request) (t1 t2 : Nat)
    (hurl : r.url = "/") :
    ((handleRequest st r t1 t2).2 = .fetchStarted) ↔ st.lastFetchTimeMS + 30000 < t1 := by
  by_cases hs : st.lastFetchTimeMS + 30000 < t1
  · rw [handleRequest_root_stale st r t1 t2 hurl hs]
    exact iff_of_true rfl hs
  · rw [handleRequest_root_fresh st r t1 t2 hurl (Nat.not_lt.mp hs)]
    simp [hs]

/-- Claim C2: staleness uses a strict comparison.  With
`refetchIntervalMillis = 30000`, a root request at time `t1` starts a
refresh cycle iff `t1 > lastFetchTimeMillis + 30000`; a request at
exactly `lastFetchTimeMillis + 30000` is not stale, one at
`lastFetchTimeMillis + 30001` is, and the initial state
(`lastFetchTimeMillis = 0`) is stale for any `t1 > 30000`. -/
theorem C2_staleness_strict_boundary :
    refetchIntervalMillis = 30000
    ∧ (∀ (st : SrvState) (r : Request) (t1 t2 : Nat), r.url = "/" →
        (((handleRequest st r t1 t2).2 = .fetchStarted) ↔ st.lastFetchTimeMS + 30000 < t1))
    ∧ (∀ (st : SrvState) (r : Request) (t2 : Nat), r.url = "/" →
        ¬((handleRequest st r (st.lastFetchTimeMS + 30000) t2).2 = .fetchStarted))
    ∧ (∀ (st : SrvState) (r : Request) (t2 : Nat), r.url = "/" →
        (handleRequest st r (st.lastFetchTimeMS + 30001) t2).2 = .fetchStarted)
    ∧ (∀ (r : Request) (t1 t2 : Nat), r.url = "/" → 30000 < t1 →
        (handleRequest initState r t1 t2).2 = .fetchStarted) := by
  refine ⟨rfl, fun st r t1 t2 h => handleRequest_fetchStarted_iff st r t1 t2 h, ?_, ?_, ?_⟩
  · intro st r t2 h
    rw [handleRequest_fetchStarted_iff st r _ t2 h]
    omega
  · intro st r t2 h
    rw [handleRequest_fetchStarted_iff st r _ t2 h]
    omega
  · intro r t1 t2 h h30
    rw [handleRequest_fetchStarted_iff initState r t1 t2 h]
    simp only [initState]
    omega

/-- Witness for C2 at a concrete input: from the initial state a root
request at 30001 ms starts a refresh cycle. -/
theorem C2_staleness_strict_boundary_witness :
    (handleRequest initState { url := "/", origin := none }
        (initState.lastFetchTimeMS + 30001) 40000).2 = .fetchStarted :=
  C2_staleness_strict_boundary.2.2.2.1 initState { url := "/", origin := none } 40000 rfl

/-- Claim C1 counterexample: the stale branch stores the SECOND
`Date.now()` sample (src/app.js line 99), not the `nowMS` value compared
on line 92.  With decision sample 31000 and stamp sample 31001 (a
legitimate monotone clock: the millisecond counter ticked inside the
synchronous block), the stored timestamp is 31001, not the compared
31000 — so the stored timestamp does not always equal `nowMillis`. -/
theorem C1_counterexample :
    (handleRequest initState { url := "/", origin := none } 31000 31001).1.lastFetchTimeMS = 31001
    ∧ (handleRequest initState { url := "/", origin := none } 31000 31001).2
        = HandleResult.fetchStarted
    ∧ (31001 : Nat) ≠ 31000 := by
  decide

/-- Claim C1 as amended: in the stale branch the controller updates
`lastFetchTimeMillis` synchronously at decision time — the handler step
itself already returns the advanced stamp and merely *starts* the fetch,
while no fetch completion (`fetchStep`) ever changes the stamp — but the
value stored is the second `Date.now()` sample `t2` taken just after
initiating the fetch, which is at least the compared `nowMillis` (`t1`)
and equals it only when the clock has not advanced inside the handler. -/
theorem C1_stamp_advances_at_decision (st : SrvState) (r : Request) (t1 t2 : Nat)
    (hurl : r.url = "/") (hclock : t1 ≤ t2)
    (hstale : st.lastFetchTimeMS + 30000 < t1) :
    (handleRequest st r t1 t2).1.lastFetchTimeMS = t2
    ∧ t1 ≤ (handleRequest st r t1 t2).1.lastFetchTimeMS
    ∧ (handleRequest st r t1 t2).2 = .fetchStarted
    ∧ (handleRequest st r t1 t2).1.cachedStations = st.cachedStations
    ∧ (∀ (st2 : SrvState) (r2 : Request) (b : Option RawFeed),
        ((fetchStep st2 r2 b).1).lastFetchTimeMS = st2.lastFetchTimeMS) := by
  rw [handleRequest_root_stale st r t1 t2 hurl hstale]
  refine ⟨rfl, hclock, rfl, rfl, ?_⟩
  intro st2 r2 b
  cases b with
  | none => rfl
  | some raw => cases htf : transformFeed raw <;> simp [fetchStep, htf]

/-- Witness for the amended C1 at a concrete input. -/
theorem C1_stamp_advances_at_decision_witness :
    (handleRequest initState { url := "/", origin := none } 31000 31001).1.lastFetchTimeMS = 31001
    ∧ 31000 ≤ (handleRequest initState { url := "/", origin := none } 31000 31001).1.lastFetchTimeMS
    ∧ (handleRequest initState { url := "/", origin := none } 31000 31001).2 = .fetchStarted
    ∧ (handleRequest initState { url := "/", origin := none } 31000 31001).1.cachedStations
        = initState.cachedStations
    ∧ (∀ (st2 : SrvState) (r2 : Request) (b : Option RawFeed),
        ((fetchStep st2 r2 b).1).lastFetchTimeMS = st2.lastFetchTimeMS) :=
  C1_stamp_advances_at_decision initState { url := "/", origin := none } 31000 31001
    rfl (by decide) (by decide)

/-- Claim C7: a request whose path is not exactly the root path gets
status 404 with body NOT FOUND, starts no upstream fetch, and leaves both
`lastFetchTimeMS` and `cachedStations` untouched. -/
theorem C7_unknown_route (st : SrvState) (r : Request) (t1 t2 : Nat)
    (h : pathOf r.url ≠ "/") :
    handleRequest st r t1 t2
      = (st, .notFound { statusCode := 404, headers := [], body := "NOT FOUND" })
    ∧ (handleRequest st r t1 t2).1.lastFetchTimeMS = st.lastFetchTimeMS
    ∧ (handleRequest st r t1 t2).1.cachedStations = st.cachedStations
    ∧ isFetchStart (handleRequest st r t1 t2).2 = false := by
  have hurl : r.url ≠ "/" := by
    intro he
    apply h
    rw [he]
    rfl
  have he := handleRequest_notFound st r t1 t2 hurl
  rw [he]
  exact ⟨rfl, rfl, rfl, rfl⟩

/-- Witness for C7 at a concrete input: a request to /other. -/
theorem C7_unknown_route_witness :
    handleRequest initState { url := "/other", origin := none } 5 6
      = (initState, .notFound { statusCode := 404, headers := [], body := "NOT FOUND" })
    ∧ (handleRequest initState { url := "/other", origin := none } 5 6).1.lastFetchTimeMS
        = initState.lastFetchTimeMS
    ∧ (handleRequest initState { url := "/other", origin := none } 5 6).1.cachedStations
        = initState.cachedStations
    ∧ isFetchStart (handleRequest initState { url := "/other", origin := none } 5 6).2 = false :=
  C7_unknown_route initState { url := "/other", origin := none } 5 6 (by decide)

/-- Claim C10: a root request that takes the fresh branch while
`cachedStations` is still `null` (no fetch ever completed) is answered
with status 200, Content-Type application/json, and body exactly the
four-character JSON text for the null value — not an empty
FeatureCollection and not an error response. -/
theorem C10_null_body_before_first_fetch (st : SrvState) (r : Request) (t1 t2 : Nat)
    (hurl : r.url = "/") (hcache : st.cachedStations = none)
    (hfresh : t1 ≤ st.lastFetchTimeMS + 30000) :
    handleRequest st r t1 t2
      = (st, .servedCached
          { statusCode := 200
            headers := [("Content-Type", "application/json"),
                        ("Access-Control-Allow-Origin", jsOrDefault r.origin "*")]
            body := "null" }) := by
  rw [handleRequest_root_fresh st r t1 t2 hurl hfresh, hcache]
  rfl

/-- Witness for C10 at a concrete input: first request at 1000 ms would
be stale, so pick 1000 ms against a fresh stamp — use the initial state
with a request inside the window (t1 = 25000 with lastFetchTimeMS = 0 is
not stale since 25000 ≤ 30000). -/
theorem C10_null_body_before_first_fetch_witness :
    handleRequest initState { url := "/", origin := none } 25000 25000
      = (initState, .servedCached
          { statusCode := 200
            headers := [("Content-Type", "application/json"),
                        ("Access-Control-Allow-Origin",
                         jsOrDefault (none : Option String) "*")]
            body := "null" }) :=
  C10_null_body_before_first_fetch initState { url := "/", origin := none } 25000 25000
    rfl rfl (by decide)

/-- A run of root requests that are all inside the freshness window
leaves the state untouched and answers each from the cache. -/
lemma runRequests_fresh (st : SrvState) (reqs : List (Request × Nat × Nat))
    (h : ∀ x ∈ reqs, (Prod.fst x).url = "/" ∧ x.2.1 ≤ st.lastFetchTimeMS + 30000) :
    runRequests st reqs
      = (st, reqs.map
          (fun x => HandleResult.servedCached
            (sendJsonResponse x.1 (cacheToJVal st.cachedStations)))) := by
  induction reqs with
  | nil => rfl
  | cons hd tl ih =>
      obtain ⟨r, t1, t2⟩ := hd
      have h0 := h (r, t1, t2) (List.mem_cons_self _ _)
      have hh := handleRequest_root_fresh st r t1 t2 h0.1 h0.2
      have htl := ih (fun x hx => h x (List.mem_cons_of_mem _ hx))
      simp only [runRequests, hh, htl, List.map_cons]

/-- Cache-served results are not fetch starts. -/
lemma countFetches_served_map (l : List (Request × Nat × Nat))
    (g : Request × Nat × Nat → HttpResponse) :
    countFetches (l.map (fun x => HandleResult.servedCached (g x))) = 0 := by
  induction l with
  | nil => rfl
  | cons hd tl ih =>
      simpa [countFetches, List.filter_cons, isFetchStart] using ih

/-- Claim C3: a burst of root requests within one millisecond of a stale
request, handled back to back with no fetch completion in between,
initiates exactly one upstream fetch; every later request of the burst
takes the fresh branch and is served the current (possibly null) cached
value, without waiting for the in-flight fetch. -/
theorem C3_no_refetch_storm (st : SrvState) (r0 : Request) (t1 t2 : Nat)
    (rest : List (Request × Nat × Nat))
    (h0 : r0.url = "/") (hclock : t1 ≤ t2)
    (hstale : st.lastFetchTimeMS + 30000 < t1)
    (hrest : ∀ x ∈ rest, (Prod.fst x).url = "/" ∧ x.2.1 ≤ t1 + 1) :
    countFetches (runRequests st ((r0, t1, t2) :: rest)).2 = 1
    ∧ (runRequests st ((r0, t1, t2) :: rest)).2
        = HandleResult.fetchStarted
            :: rest.map (fun x => HandleResult.servedCached
                 (sendJsonResponse x.1 (cacheToJVal st.cachedStations))) := by
  have hh := handleRequest_root_stale st r0 t1 t2 h0 hstale
  have hr : ∀ x ∈ rest,
      (Prod.fst x).url = "/"
      ∧ x.2.1 ≤ (SrvState.mk t2 st.cachedStations).lastFetchTimeMS + 30000 := by
    intro x hx
    refine ⟨(hrest x hx).1, ?_⟩
    have hx2 := (hrest x hx).2
    simp only
    omega
  have hrun := runRequests_fresh (SrvState.mk t2 st.cachedStations) rest hr
  simp only [runRequests, hh, hrun]
  refine ⟨?_, trivial⟩
  simp only [countFetches, List.filter_cons]
  simpa [countFetches, isFetchStart] using
    countFetches_served_map rest
      (fun x => sendJsonResponse x.1 (cacheToJVal st.cachedStations))

/-- Witness for C3 at a concrete input: two requests one millisecond
apart while the cache is stale produce one fetch and one cache-served
answer. -/
theorem C3_no_refetch_storm_witness :
    countFetches (runRequests initState
        [({ url := "/", origin := none }, 31000, 31000),
         ({ url := "/", origin := none }, 31001, 31001)]).2 = 1
    ∧ (runRequests initState
        [({ url := "/", origin := none }, 31000, 31000),
         ({ url := "/", origin := none }, 31001, 31001)]).2
        = HandleResult.fetchStarted
            :: [(({ url := "/", origin := none } : Request), 31001, 31001)].map
                 (fun x => HandleResult.servedCached
                   (sendJsonResponse x.1 (cacheToJVal initState.cachedStations))) :=
  C3_no_refetch_storm initState { url := "/", origin := none } 31000 31000
    [({ url := "/", origin := none }, 31001, 31001)]
    rfl (Nat.le_refl 31000) (by decide) (by decide)

/-- Claim C4: for a raw feed carrying a `stationBeanList` array,
`transformFeed` returns a FeatureCollection mapping the stations 1:1 in
input order; the i-th Feature is a Point whose coordinates are
`[station.longitude, station.latitude]` and whose properties are the
i-th station object, unchanged. -/
theorem C4_transform_shape_order (stations : List Station) :
    transformFeed { stationBeanList := some stations }
      = .ok { fctype := "FeatureCollection", features := stations.map transformStation }
    ∧ (stations.map transformStation).length = stations.length
    ∧ (∀ (i : Nat) (s : Station), stations.get? i = some s →
        (stations.map transformStation).get? i
          = some { ftype := "Feature"
                   geometry := { gtype := "Point"
                                 coordinates := [getProp s "longitude", getProp s "latitude"] }
                   properties := s }) := by
  refine ⟨rfl, by simp, ?_⟩
  intro i s hs
  rw [List.get?_map, hs]
  rfl

/-- Witness for C4 at the spec §8 example station (integer coordinates):
the single feature keeps order, coordinates and properties. -/
theorem C4_transform_shape_order_witness :
    ([[("id", JVal.jnum 1), ("longitude", JVal.jnum (-122)), ("latitude", JVal.jnum 37)]].map
        transformStation).get? 0
      = some { ftype := "Feature"
               geometry := { gtype := "Point"
                             coordinates :=
                               [getProp [("id", JVal.jnum 1), ("longitude", JVal.jnum (-122)),
                                         ("latitude", JVal.jnum 37)] "longitude",
                                getProp [("id", JVal.jnum 1), ("longitude", JVal.jnum (-122)),
                                         ("latitude", JVal.jnum 37)] "latitude"] }
               properties :=
                 [("id", JVal.jnum 1), ("longitude", JVal.jnum (-122)),
                  ("latitude", JVal.jnum 37)] } :=
  (C4_transform_shape_order
      [[("id", JVal.jnum 1), ("longitude", JVal.jnum (-122)), ("latitude", JVal.jnum 37)]]).2.2
    0 [("id", JVal.jnum 1), ("longitude", JVal.jnum (-122)), ("latitude", JVal.jnum 37)] rfl

/-- Claim C5 counterexample: a station with NO `longitude`/`latitude`
fields at all does NOT make `transformFeed` fail — it succeeds and emits
a Feature whose coordinate entries are `undefined` (serialized later as
`null`), refuting `fails ... if any station lacks numeric
longitude/latitude`. -/
theorem C5_counterexample :
    transformFeed { stationBeanList := some [([] : Station)] }
      = .ok { fctype := "FeatureCollection"
              features := [{ ftype := "Feature"
                             geometry := { gtype := "Point", coordinates := [none, none] }
                             properties := ([] : Station) }] }
    ∧ getProp ([] : Station) "longitude" = none
    ∧ getProp ([] : Station) "latitude" = none :=
  ⟨rfl, rfl, rfl⟩

/-- Claim C5 as amended: `transformFeed` fails exactly when the raw feed
lacks the `stationBeanList` field; missing or non-numeric station
coordinates never cause a failure, the station is still mapped to a
Feature (with `undefined` coordinate entries). -/
theorem C5_fails_iff_no_station_list (raw : RawFeed) :
    (raw.stationBeanList = none →
      transformFeed raw = .error "TypeError: stationBeanList is undefined")
    ∧ (∀ l, raw.stationBeanList = some l →
        transformFeed raw
          = .ok { fctype := "FeatureCollection", features := l.map transformStation }) := by
  constructor
  · intro h
    simp [transformFeed, h]
  · intro l h
    simp [transformFeed, h]

/-- Witness for the amended C5 at concrete inputs: a feed without the
station list errors, one with an empty list succeeds. -/
theorem C5_fails_iff_no_station_list_witness :
    transformFeed { stationBeanList := none }
      = .error "TypeError: stationBeanList is undefined"
    ∧ transformFeed { stationBeanList := some [] }
      = .ok { fctype := "FeatureCollection", features := [] } :=
  ⟨(C5_fails_iff_no_station_list { stationBeanList := none }).1 rfl,
   (C5_fails_iff_no_station_list { stationBeanList := some [] }).2 [] rfl⟩

/-- Claim C6: when the fetch started by a stale root request fails
(network error — the callback never runs — or a body whose
parse/transform throws), the triggering request receives no response,
`cachedStations` is not modified, and `lastFetchTimeMS` stays at the
advanced stamp `t2` with no rollback, so no request up to a full refetch
interval after the stamp can start another fetch, even though no cached
value was produced. -/
theorem C6_fetch_failure_starves (st : SrvState) (r : Request) (t1 t2 : Nat)
    (b : Option RawFeed)
    (hurl : r.url = "/") (hclock : t1 ≤ t2)
    (hstale : st.lastFetchTimeMS + 30000 < t1)
    (hfail : b = none ∨ ∃ raw, b = some raw ∧ raw.stationBeanList = none) :
    (fetchStep (handleRequest st r t1 t2).1 r b).2 = none
    ∧ (fetchStep (handleRequest st r t1 t2).1 r b).1.cachedStations = st.cachedStations
    ∧ (fetchStep (handleRequest st r t1 t2).1 r b).1.lastFetchTimeMS = t2
    ∧ st.lastFetchTimeMS < (fetchStep (handleRequest st r t1 t2).1 r b).1.lastFetchTimeMS
    ∧ (∀ (r2 : Request) (u u2 : Nat), r2.url = "/" →
        u ≤ (fetchStep (handleRequest st r t1 t2).1 r b).1.lastFetchTimeMS + 30000 →
        ¬((handleRequest (fetchStep (handleRequest st r t1 t2).1 r b).1 r2 u u2).2
            = HandleResult.fetchStarted)) := by
  have h1 := handleRequest_root_stale st r t1 t2 hurl hstale
  have hb : fetchStep (SrvState.mk t2 st.cachedStations) r b
      = (SrvState.mk t2 st.cachedStations, none) := by
    rcases hfail with h | ⟨raw, hbr, hrw⟩
    · rw [h]
      rfl
    · rw [hbr]
      simp [fetchStep, transformFeed, hrw]
  rw [h1]
  dsimp only
  rw [hb]
  dsimp only
  refine ⟨rfl, rfl, rfl, by omega, ?_⟩
  intro r2 u u2 h2 hu
  rw [handleRequest_fetchStarted_iff _ r2 u u2 h2]
  dsimp only at hu ⊢
  omega

/-- Witness for C6 at a concrete input: a stale request at 40000 ms whose
fetch dies on the network. -/
theorem C6_fetch_failure_starves_witness :
    (fetchStep (handleRequest initState { url := "/", origin := none } 40000 40000).1
        { url := "/", origin := none } none).2 = none
    ∧ (fetchStep (handleRequest initState { url := "/", origin := none } 40000 40000).1
        { url := "/", origin := none } none).1.cachedStations = initState.cachedStations
    ∧ (fetchStep (handleRequest initState { url := "/", origin := none } 40000 40000).1
        { url := "/", origin := none } none).1.lastFetchTimeMS = 40000
    ∧ initState.lastFetchTimeMS
        < (fetchStep (handleRequest initState { url := "/", origin := none } 40000 40000).1
            { url := "/", origin := none } none).1.lastFetchTimeMS
    ∧ (∀ (r2 : Request) (u u2 : Nat), r2.url = "/" →
        u ≤ (fetchStep (handleRequest initState { url := "/", origin := none } 40000 40000).1
              { url := "/", origin := none } none).1.lastFetchTimeMS + 30000 →
        ¬((handleRequest
            (fetchStep (handleRequest initState { url := "/", origin := none } 40000 40000).1
              { url := "/", origin := none } none).1 r2 u u2).2
            = HandleResult.fetchStarted)) :=
  C6_fetch_failure_starves initState { url := "/", origin := none } 40000 40000 none
    rfl (Nat.le_refl 40000) (by decide) (Or.inl rfl)

/-- Claim C8 counterexample, two concrete divergences.  (1) Node's
`request.url` keeps the query string and line 84 compares the raw url, so
a request whose PATH is the root but which carries a query string is
answered 404, not 200.  (2) `request.headers.origin || '*'` treats a
present-but-empty Origin header as falsy, so the response echoes `*`
rather than the header's value. -/
theorem C8_counterexample :
    pathOf "/?a=1" = "/"
    ∧ (handleRequest { lastFetchTimeMS := 100000, cachedStations := none }
        { url := "/?a=1", origin := none } 100000 100000).2
        = HandleResult.notFound { statusCode := 404, headers := [], body := "NOT FOUND" }
    ∧ (handleRequest { lastFetchTimeMS := 100000, cachedStations := none }
        { url := "/", origin := some "" } 100000 100000).2
        = HandleResult.servedCached
            { statusCode := 200
              headers := [("Content-Type", "application/json"),
                          ("Access-Control-Allow-Origin", "*")]
              body := "null" }
    ∧ ("*" : String) ≠ "" := by
  decide

/-- Claim C8 as amended: every response to a request whose RAW URL is
exactly the root (path `/` and no query string) has status 200, header
Content-Type application/json, header Access-Control-Allow-Origin equal
to the request's Origin header when present and non-empty and `*`
otherwise, and a body that is the served document pretty-printed by
`JSON.stringify(·, null, 3)` — the cached value for fresh-branch answers,
the freshly fetched FeatureCollection for answers sent by a completing
fetch. -/
theorem C8_response_shape (st : SrvState) (r : Request) (t1 t2 : Nat)
    (hurl : r.url = "/") :
    (∀ resp, (handleRequest st r t1 t2).2 = HandleResult.servedCached resp →
        resp.statusCode = 200
        ∧ resp.headers = [("Content-Type", "application/json"),
                          ("Access-Control-Allow-Origin", jsOrDefault r.origin "*")]
        ∧ resp.body = jsonStr 0 (cacheToJVal st.cachedStations))
    ∧ (∀ (st2 : SrvState) (b : Option RawFeed) (resp : HttpResponse),
        (fetchStep st2 r b).2 = some resp →
        resp.statusCode = 200
        ∧ resp.headers = [("Content-Type", "application/json"),
                          ("Access-Control-Allow-Origin", jsOrDefault r.origin "*")]
        ∧ resp.body = jsonStr 0 (cacheToJVal (fetchStep st2 r b).1.cachedStations)) := by
  constructor
  · intro resp h
    by_cases hs : st.lastFetchTimeMS + 30000 < t1
    · rw [handleRequest_root_stale st r t1 t2 hurl hs] at h
      cases h
    · rw [handleRequest_root_fresh st r t1 t2 hurl (Nat.not_lt.mp hs)] at h
      dsimp only at h
      cases h
      exact ⟨rfl, rfl, rfl⟩
  · intro st2 b resp h
    cases b with
    | none => cases h
    | some raw =>
        cases htf : transformFeed raw with
        | error e =>
            rw [show fetchStep st2 r (some raw) = (st2, none) by simp [fetchStep, htf]] at h
            cases h
        | ok stations =>
            have hfs : fetchStep st2 r (some raw)
                = ({ st2 with cachedStations := some stations },
                   some (sendJsonResponse r (fcToJVal stations))) := by
              simp [fetchStep, htf]
            rw [hfs] at h ⊢
            dsimp only at h ⊢
            cases h
            exact ⟨rfl, rfl, rfl⟩

/-- Witness for the amended C8 at a concrete input: a fresh-branch answer
with a non-empty Origin header. -/
theorem C8_response_shape_witness :
    (sendJsonResponse { url := "/", origin := some "https://example.org" }
        (cacheToJVal none)).statusCode = 200
    ∧ (sendJsonResponse { url := "/", origin := some "https://example.org" }
        (cacheToJVal none)).headers
        = [("Content-Type", "application/json"),
           ("Access-Control-Allow-Origin",
            jsOrDefault (some "https://example.org") "*")]
    ∧ (sendJsonResponse { url := "/", origin := some "https://example.org" }
        (cacheToJVal none)).body
        = jsonStr 0 (cacheToJVal
            (SrvState.mk 50000 (none : Option FeatureCollection)).cachedStations) :=
  (C8_response_shape (SrvState.mk 50000 none)
      { url := "/", origin := some "https://example.org" } 50000 50000 rfl).1
    (sendJsonResponse { url := "/", origin := some "https://example.org" } (cacheToJVal none))
    (by decide)

/-- Claim C9: the feed transformer is pure and deterministic — in the
source, `transformStation` and `transformFeed` (src/app.js lines 40-64)
read no mutable binding (`lastFetchTimeMS`, `cachedStations`) and write
nothing, so their embedding is a plain function, and two calls on the
same raw feed yield structurally identical FeatureCollections. -/
theorem C9_transformer_deterministic (raw raw2 : RawFeed) (h : raw = raw2) :
    transformFeed raw = transformFeed raw2
    ∧ transformFeed raw = transformFeed raw := by
  subst h
  exact ⟨rfl, rfl⟩

/-- Witness for C9 at a concrete input. -/
theorem C9_transformer_deterministic_witness :
    transformFeed { stationBeanList := some [] } = transformFeed { stationBeanList := some [] }
    ∧ transformFeed { stationBeanList := some [] }
        = transformFeed { stationBeanList := some [] } :=
  C9_transformer_deterministic { stationBeanList := some [] } { stationBeanList := some [] } rfl
